import Mathlib

/-!
Shallow embedding of the flexiManage job-dispatch and state-reconciliation
code (backend/deviceLogic/dhcp.js, backend/deviceLogic/validators.js,
backend/services/DevicesService.js) together with proofs about the claims
of the specification.

JavaScript string fields that hold IPv4 addresses are modelled by the
inductive type IpStr below: the numeric value of a well-formed dotted quad
is kept as a Nat, a non-empty string that does not parse as an address is
IpStr.malformed, and the empty string is IpStr.empty.  Mongo ObjectId
values are modelled as Nat.  Subnet strings of the form "a.b.c.d/m" are
modelled as pairs (Nat, Nat) of the address value and the prefix length;
two well-formed subnet strings are equal exactly when their pairs are.
-/

namespace Flexi

/-- Model of a JavaScript string that is expected to hold an IPv4 address:
either the empty string, a non-empty string that is not a dotted quad, or a
dotted quad with numeric value n (so net.isIPv4 holds only for addr). -/
inductive IpStr where
  | empty : IpStr
  | malformed : IpStr
  | addr : Nat → IpStr
deriving DecidableEq, Repr

/-- net.isIPv4 from the node standard library, on the IpStr model. -/
def isIPv4 : IpStr → Bool
  | IpStr.addr _ => true
  | _ => false

/-- Numeric value of an IpStr; only consulted after isIPv4 checks pass. -/
def ipNum : IpStr → Nat
  | IpStr.addr n => n
  | _ => 0

/-- Numeric value of a dotted quad a.b.c.d. -/
def ip4 (a b c d : Nat) : Nat :=
  ((a * 256 + b) * 256 + c) * 256 + d

/-- First address of the cidr block ip/mask, as computed by the cidr-tools
package: the host bits of the given address are cleared. -/
def cidrStart (ip mask : Nat) : Nat :=
  ip / 2 ^ (32 - mask) * 2 ^ (32 - mask)

/-- Last address of the cidr block ip/mask, as computed by cidr-tools: the
host bits of the given address are set. -/
def cidrEnd (ip mask : Nat) : Nat :=
  cidrStart ip mask + (2 ^ (32 - mask) - 1)

/-- cidr.overlap of the cidr-tools package on two IPv4 cidr blocks: the two
address ranges intersect. -/
def cidrOverlap (a : Nat × Nat) (b : Nat × Nat) : Bool :=
  decide (cidrStart a.1 a.2 ≤ cidrEnd b.1 b.2) &&
  decide (cidrStart b.1 b.2 ≤ cidrEnd a.1 a.2)

/-- One mac/host/ip binding of a DHCP definition. -/
structure MacAssign where
  host : String
  mac : String
  ipv4 : String
deriving DecidableEq, Repr

/-- A DHCP sub-document of a device (models both the stored dhcp array
element and the request body shape, which carry the same fields in JS). -/
structure DhcpEntry where
  _id : Nat
  interface : String
  rangeStart : String
  rangeEnd : String
  dns : List String
  macAssign : List MacAssign
  status : String
deriving DecidableEq, Repr

/-- A static-route sub-document of a device; only the fields touched by the
handlers under proof are modelled. -/
structure StaticRoute where
  _id : Nat
  status : String
deriving DecidableEq, Repr

/-- An interface sub-document of a device.  pathlabels holds the _id values
of the populated path-label documents. -/
structure Interface where
  _id : Nat
  name : String
  pciaddr : String
  isAssigned : Bool
  type : String
  dhcp : String
  IPv4 : IpStr
  IPv4Mask : Option Nat
  gateway : IpStr
  metric : Nat
  routing : String
  pathlabels : List Nat
  modified : Bool
  PublicPort : Nat
  NatType : String
  internetAccess : String
  useStun : Bool
deriving DecidableEq, Repr

/-- A tunnel document. -/
structure Tunnel where
  _id : Nat
  org : Nat
  deviceA : Nat
  deviceB : Nat
  interfaceA : Nat
  interfaceB : Nat
  pathlabel : Option Nat
  isActive : Bool
deriving DecidableEq, Repr

/-- A device document.  agentMajorVersion models
getMajorVersion(device.versions.agent). -/
structure Device where
  _id : Nat
  org : Nat
  account : Nat
  name : String
  hostname : String
  machineId : String
  isApproved : Bool
  agentMajorVersion : Nat
  interfaces : List Interface
  staticroutes : List StaticRoute
  dhcp : List DhcpEntry
deriving DecidableEq, Repr

/-- The {valid, err} result record of the validators. -/
structure ValidationResult where
  valid : Bool
  err : String
deriving DecidableEq, Repr

/-- One entry of the organizationLanSubnets argument of validateDevice:
a device name and a subnet string (modelled as an address/prefix pair). -/
structure OrgLanSubnet where
  name : String
  subnet : Nat × Nat
deriving DecidableEq, Repr

/-- The subnet string built by validateDevice for an interface,
as the template string ifc.IPv4 ++ "/" ++ ifc.IPv4Mask. -/
def ifcSubnet (ifc : Interface) : Nat × Nat :=
  (ipNum ifc.IPv4, ifc.IPv4Mask.getD 0)

/-- The per-assigned-interface checks of validateDevice
(backend/deviceLogic/validators.js, the for loop over assignedIfs), in
source order; some r means the loop returns r, none means the interface
passes all checks. -/
def checkAssignedIfc (ifc : Interface) : Option ValidationResult :=
  if ¬ (ifc.type = "WAN" ∨ ifc.type = "LAN") then
    some ⟨false, "Invalid interface type for " ++ ifc.name ++ ": " ++ ifc.type⟩
  else if ¬ isIPv4 ifc.IPv4 ∨ ifc.IPv4Mask = none then
    some ⟨false, "Interface " ++ ifc.name ++ " does not have an " ++
      (if ifc.IPv4Mask = none then "IPv4 mask" else "IP address")⟩
  else if ifc.type = "LAN" ∧ ifc.pathlabels.length ≠ 0 then
    some ⟨false, "Path Labels are not allowed on LAN interfaces"⟩
  else if ifc.type = "LAN" ∧ ifc.gateway ≠ IpStr.empty then
    some ⟨false, "LAN interfaces should not be assigned a default GW"⟩
  else if ifc.type = "WAN" ∧ ifc.routing = "OSPF" then
    some ⟨false, "OSPF should not be configured on WAN interface"⟩
  else if ifc.type = "WAN" ∧ ¬ isIPv4 ifc.gateway then
    some ⟨false, "All WAN interfaces should be assigned a default GW"⟩
  else
    none

/-- validateDevice of backend/deviceLogic/validators.js. -/
def validateDevice (device : Device) (checkOverlap : Bool := false)
    (organizationLanSubnets : List OrgLanSubnet := []) : ValidationResult :=
  let interfaces := device.interfaces
  let assignedIfs := interfaces.filter (fun ifc => ifc.isAssigned)
  let wanIfcs := assignedIfs.filter (fun ifc => ifc.type = "WAN")
  let lanIfcs := assignedIfs.filter (fun ifc => ifc.type = "LAN")
  if assignedIfs.length < 2 ∨ (wanIfcs.length = 0 ∨ lanIfcs.length = 0) then
    ⟨false, "There should be at least one LAN and one WAN interfaces"⟩
  else
    match assignedIfs.findSome? checkAssignedIfc with
    | some r => r
    | none =>
      match wanIfcs.findSome? (fun wanIfc =>
          lanIfcs.findSome? (fun lanIfc =>
            if cidrOverlap (ifcSubnet wanIfc) (ifcSubnet lanIfc) then
              some (⟨false, "WAN and LAN IP addresses have an overlap"⟩ : ValidationResult)
            else none)) with
      | some r => r
      | none =>
        if checkOverlap ∧ organizationLanSubnets.length > 0 then
          match organizationLanSubnets.findSome? (fun orgDevice =>
              lanIfcs.findSome? (fun currentLanIfc =>
                if ifcSubnet currentLanIfc ≠ orgDevice.subnet ∧
                    cidrOverlap (ifcSubnet currentLanIfc) orgDevice.subnet then
                  some (⟨false, "The device " ++ device.name ++
                    " has a LAN subnet overlap with " ++ orgDevice.name⟩ : ValidationResult)
                else none)) with
          | some r => r
          | none => ⟨true, ""⟩
        else ⟨true, ""⟩

/-- The response data record of a dhcp job
({ deviceId, routeId, message } in backend/deviceLogic/dhcp.js); it is also
the res argument delivered to the complete and error handlers.  deviceId and
routeId model ObjectId strings that are present and non-empty (the guard of
the complete handler rejects the other cases, which are not represented). -/
structure JobRes where
  deviceId : Nat
  routeId : Nat
  message : String
deriving DecidableEq, Repr

/-- One agent task { entity, message, params } built by the dhcp apply
function. -/
structure AgentTask where
  entity : String
  message : String
  paramsInterface : String
  paramsRangeStart : String
  paramsRangeEnd : String
  paramsDns : List String
  paramsMacAssign : List MacAssign
deriving DecidableEq, Repr

/-- The job queued by the dhcp apply function: title, task list, response
method and response data. -/
structure DhcpJob where
  machineId : String
  title : String
  tasks : List AgentTask
  responseMethod : String
  responseData : JobRes
deriving DecidableEq, Repr

/-- apply of backend/deviceLogic/dhcp.js: builds the add-dhcp-config or
remove-dhcp-config job for a device from the dhcp entry data (data carries
the dhcp sub-document fields plus an action; data.action = "del" selects
removal).  Agent major version 0 is rejected. -/
def dhcpApply (device : Device) (data : DhcpEntry) (action : String) :
    Except String DhcpJob :=
  if device.agentMajorVersion = 0 then
    Except.error "Command is not supported for the current agent version"
  else
    let routeId := data._id
    let message := if action = "del" then "remove-dhcp-config" else "add-dhcp-config"
    let titleStart := if action = "del" then "Delete" else "Add"
    Except.ok
      { machineId := device.machineId
        title := titleStart ++ " DHCP in device " ++ device.hostname
        tasks := [{ entity := "agent", message := message
                    paramsInterface := data.interface
                    paramsRangeStart := data.rangeStart
                    paramsRangeEnd := data.rangeEnd
                    paramsDns := data.dns
                    paramsMacAssign := data.macAssign }]
        responseMethod := "dhcp"
        responseData := { deviceId := device._id, routeId := routeId, message := message } }

/-- devices.findOneAndUpdate({ _id: devId }, update): applies f to the first
device of the collection whose _id equals devId. -/
def updateFirst (db : List Device) (devId : Nat) (f : Device → Device) : List Device :=
  match db with
  | [] => []
  | d :: rest => if d._id = devId then f d :: rest else d :: updateFirst rest devId f

/-- The $pull update of the complete handler: removes the staticroutes array
elements whose _id equals routeId. -/
def pullStaticroute (routeId : Nat) (d : Device) : Device :=
  { d with staticroutes := d.staticroutes.filter (fun s => ¬ s._id = routeId) }

/-- The $set update with arrayFilters [elem._id = routeId]: sets the status
of every staticroutes array element whose _id equals routeId. -/
def setStaticrouteStatus (routeId : Nat) (status : String) (d : Device) : Device :=
  { d with staticroutes := d.staticroutes.map (fun s =>
      if s._id = routeId then { s with status := status } else s) }

/-- complete of backend/deviceLogic/dhcp.js, as a transformer of the device
collection.  res = none models a missing result (the guard returns); a
present result with empty message is likewise rejected by the guard. -/
def dhcpComplete (res : Option JobRes) (db : List Device) : List Device :=
  match res with
  | none => db
  | some r =>
    if r.message = "" then db
    else if r.message = "remove-route" then
      updateFirst db r.deviceId (pullStaticroute r.routeId)
    else
      updateFirst db r.deviceId (setStaticrouteStatus r.routeId "complete")

/-- error of backend/deviceLogic/dhcp.js, as a transformer of the device
collection. -/
def dhcpError (res : JobRes) (db : List Device) : List Device :=
  if res.message = "remove-route" then
    updateFirst db res.deviceId (setStaticrouteStatus res.routeId "remove-failed")
  else
    updateFirst db res.deviceId (setStaticrouteStatus res.routeId "add-failed")

/-- The job record passed to the remove handler: its kue state and the
response data stored at job.data.response.data. -/
structure KueJob where
  _state : String
  responseData : JobRes
deriving DecidableEq, Repr

/-- remove of backend/deviceLogic/dhcp.js, as a transformer of the device
collection: only jobs still in state inactive, delayed or active roll back
the corresponding status. -/
def dhcpRemove (job : KueJob) (db : List Device) : List Device :=
  if job._state = "inactive" ∨ job._state = "delayed" ∨ job._state = "active" then
    updateFirst db job.responseData.deviceId
      (setStaticrouteStatus job.responseData.routeId "job-deleted")
  else db

/-- Worker of uniqBy: lodash uniqBy keeps the first element for each key,
in order; seen accumulates the keys already kept. -/
def uniqByAux {α κ : Type} [DecidableEq κ] (f : α → κ) (seen : List κ) :
    List α → List α
  | [] => []
  | x :: xs =>
    if f x ∈ seen then uniqByAux f seen xs
    else x :: uniqByAux f (f x :: seen) xs

/-- lodash uniqBy. -/
def uniqBy {α κ : Type} [DecidableEq κ] (f : α → κ) (l : List α) : List α :=
  uniqByAux f [] l

/-- validateDhcpRequest of backend/services/DevicesService.js; a thrown
error is modelled as Except.error carrying the message.  The request body
shares its shape with DhcpEntry (its _id and status fields are unused). -/
def validateDhcpRequest (device : Device) (dhcpRequest : DhcpEntry) :
    Except String Unit :=
  if dhcpRequest.interface = "" then
    Except.error "Interface is required to define DHCP"
  else
    match device.interfaces.find? (fun i => i.pciaddr = dhcpRequest.interface) with
    | none =>
      Except.error ("Unknown interface: " ++ dhcpRequest.interface ++ " in DHCP parameters")
    | some interfaceObj =>
      if interfaceObj.type ≠ "LAN" then
        Except.error "DHCP can be defined only for LAN interfaces"
      else
        let macLen := dhcpRequest.macAssign.length
        if (uniqBy (fun m => m.mac) dhcpRequest.macAssign).length ≠ macLen then
          Except.error "MAC bindings MACs are not unique"
        else if (uniqBy (fun m => m.host) dhcpRequest.macAssign).length ≠ macLen then
          Except.error "MAC bindings hosts are not unique"
        else if (uniqBy (fun m => m.ipv4) dhcpRequest.macAssign).length ≠ macLen then
          Except.error "MAC bindings IPs are not unique"
        else
          Except.ok ()

/-- A recorded call to dispatcher.apply. -/
structure DispatchCall where
  deviceId : Nat
  method : String
  action : String
deriving DecidableEq, Repr

/-- Outcome of a service handler that may mutate the device collection and
dispatch jobs: the HTTP-level result, the device collection after the
transaction, and the dispatcher calls made. -/
structure ServiceOutcome where
  result : Except String Unit
  devices : List Device
  dispatched : List DispatchCall
deriving Repr

/-- The query { _id: id, org: { $in: orgList } } used to look devices up. -/
def devMatch (id : Nat) (orgList : List Nat) (d : Device) : Bool :=
  d._id = id ∧ d.org ∈ orgList

/-- The tunnel query of devicesIdDELETE: an active tunnel of the
organization scope referencing the device on either side. -/
def tunnelBlocksDelete (id : Nat) (orgList : List Nat) (t : Tunnel) : Bool :=
  (t.deviceA = id ∨ t.deviceB = id) ∧ t.isActive ∧ t.org ∈ orgList

/-- The tunnel query of the unassign check of devicesIdPUT: an active
tunnel referencing the interface on either side. -/
def tunnelUsesIfc (ifcId : Nat) (t : Tunnel) : Bool :=
  t.isActive ∧ (t.interfaceA = ifcId ∨ t.interfaceB = ifcId)

/-- The tunnel query of the path-label removal check of devicesIdPUT: an
active tunnel referencing the interface whose path label is one of the
removed labels. -/
def tunnelUsesIfcLabel (ifcId : Nat) (remLabels : List Nat) (t : Tunnel) : Bool :=
  t.isActive ∧ (t.interfaceA = ifcId ∨ t.interfaceB = ifcId) ∧
  t.pathlabel.any (fun pl => pl ∈ remLabels) = true

/-- devicesIdDhcpPOST of backend/services/DevicesService.js.  newId is the
ObjectId minted for the new dhcp sub-document.  Every thrown error aborts
the transaction, leaving the collection unchanged; the dispatcher call
happens only after the commit. -/
def devicesIdDhcpPOST (id : Nat) (orgList : List Nat) (dhcpRequest : DhcpEntry)
    (newId : Nat) (db : List Device) : ServiceOutcome :=
  match db.find? (devMatch id orgList) with
  | none => ⟨Except.error "Device not found", db, []⟩
  | some deviceObject =>
    if ¬ deviceObject.isApproved then
      ⟨Except.error "Device must be first approved", db, []⟩
    else
      match validateDhcpRequest deviceObject dhcpRequest with
      | Except.error e => ⟨Except.error e, db, []⟩
      | Except.ok _ =>
        let dhcpObject := deviceObject.dhcp.filter
          (fun s => s.interface = dhcpRequest.interface)
        if dhcpObject.length > 0 then
          ⟨Except.error "DHCP already configured for that interface", db, []⟩
        else
          let dhcpData : DhcpEntry :=
            { _id := newId
              interface := dhcpRequest.interface
              rangeStart := dhcpRequest.rangeStart
              rangeEnd := dhcpRequest.rangeEnd
              dns := dhcpRequest.dns
              macAssign := dhcpRequest.macAssign
              status := "add-wait" }
          let newDb := updateFirst db deviceObject._id
            (fun d => { d with dhcp := d.dhcp ++ [dhcpData] })
          ⟨Except.ok (),
            newDb,
            [{ deviceId := deviceObject._id, method := "dhcp", action := "add" }]⟩

/-- A recorded call to flexibilling.registerDevice. -/
structure BillingCall where
  account : Nat
  count : Nat
  increment : Int
deriving DecidableEq, Repr

/-- The document state touched by devicesIdDELETE: the device and tunnel
collections plus the billing registrations performed inside the
transaction. -/
structure DeleteState where
  devices : List Device
  tunnels : List Tunnel
  billing : List BillingCall
deriving DecidableEq, Repr

/-- devicesIdDELETE of backend/services/DevicesService.js.  All steps run
inside one transaction: a thrown error aborts it, returning the state
unchanged. -/
def devicesIdDELETE (id : Nat) (orgList : List Nat) (st : DeleteState) :
    Except String Unit × DeleteState :=
  let tunnelCount := (st.tunnels.filter (tunnelBlocksDelete id orgList)).length
  if tunnelCount > 0 then
    (Except.error "All device tunnels must be deleted before deleting a device", st)
  else
    match st.devices.filter (devMatch id orgList) with
    | [] => (Except.error "Device for deletion not found", st)
    | d0 :: _ =>
      let deviceCount := (st.devices.filter (fun d => d.account = d0.account)).length
      (Except.ok (),
        { devices := st.devices.filter (fun d => ! devMatch id orgList d)
          tunnels := st.tunnels
          billing := st.billing ++ [{ account := d0.account, count := deviceCount, increment := -1 }] })

/-- The device-modify request body fields consumed by devicesIdPUT.
interfaces = none and dhcp = none model a request without those arrays
(the Array.isArray checks fail). -/
structure DeviceRequest where
  isApproved : Bool
  interfaces : Option (List Interface)
  dhcp : Option (List DhcpEntry)
deriving Repr

/-- The per-interface body of the interface-merge loop of devicesIdPUT
(the origDevice.interfaces.map callback): finds the request interface
matching the original one by _id, applies the system-assigned fields,
runs the tunnel-connectivity checks (a thrown error is Except.error), and
applies the network-parameter copy rules and the modified flag. -/
def mergeIntf (tunnels : List Tunnel) (tunnelPort : Nat)
    (reqIfs : List Interface) (origIntf : Interface) : Except String Interface :=
  match reqIfs.find? (fun rif => origIntf._id = rif._id) with
  | none => Except.ok origIntf
  | some updIntf0 =>
    let updIntf := { updIntf0 with
      PublicPort := if updIntf0.useStun then origIntf.PublicPort else tunnelPort
      NatType := if updIntf0.useStun then origIntf.NatType else "Static"
      internetAccess := origIntf.internetAccess }
    let chk : Except String Unit :=
      if origIntf.isAssigned then
        if ¬ updIntf.isAssigned then
          let numTunnels := (tunnels.filter (tunnelUsesIfc origIntf._id)).length
          if numTunnels > 0 then
            Except.error "Unassigned interface used by existing tunnels, please delete related tunnels before"
          else Except.ok ()
        else
          let pathlabels := updIntf.pathlabels
          let remLabels := origIntf.pathlabels.filter (fun p => ¬ p ∈ pathlabels)
          if remLabels.length > 0 then
            let numTunnels := (tunnels.filter (tunnelUsesIfcLabel origIntf._id remLabels)).length
            if numTunnels > 0 then
              Except.error "Removed label used by existing tunnels, please delete related tunnels before"
            else Except.ok ()
          else Except.ok ()
      else Except.ok ()
    match chk with
    | Except.error e => Except.error e
    | Except.ok _ =>
      let updIntf := if ¬ updIntf.isAssigned ∨ updIntf.dhcp = "yes" then
          { updIntf with IPv4 := origIntf.IPv4, IPv4Mask := origIntf.IPv4Mask
                         gateway := origIntf.gateway }
        else updIntf
      let updIntf := if ¬ updIntf.isAssigned then
          { updIntf with metric := origIntf.metric }
        else updIntf
      let updIntf := if updIntf.isAssigned ≠ origIntf.isAssigned ∨
          updIntf.type ≠ origIntf.type ∨ updIntf.dhcp ≠ origIntf.dhcp ∨
          updIntf.IPv4 ≠ origIntf.IPv4 ∨ updIntf.IPv4Mask ≠ origIntf.IPv4Mask ∨
          updIntf.gateway ≠ origIntf.gateway then
          { updIntf with modified := true }
        else updIntf
      Except.ok updIntf

/-- The interface list of the request after the merge loop of devicesIdPUT:
when the request carries an interfaces array, every original interface is
merged with its requested update (original interfaces without an update are
kept); otherwise the original interfaces are used unchanged (this is also
what deviceToValidate falls back to). -/
def mergedRequestInterfaces (tunnels : List Tunnel) (tunnelPort : Nat)
    (origDevice : Device) (deviceRequest : DeviceRequest) :
    Except String (List Interface) :=
  match deviceRequest.interfaces with
  | some reqIfs => origDevice.interfaces.mapM (mergeIntf tunnels tunnelPort reqIfs)
  | none => Except.ok origDevice.interfaces

/-- The deviceToValidate object of devicesIdPUT: the request body plus the
original _id, with the merged interfaces (only its interfaces and name are
read by the validators). -/
def deviceToValidate (origDevice : Device) (deviceRequest : DeviceRequest)
    (mergedIfs : List Interface) : Device :=
  { origDevice with
    isApproved := deviceRequest.isApproved
    interfaces := mergedIfs
    dhcp := deviceRequest.dhcp.getD origDevice.dhcp }

/-- The orgLanSubnets value computed by devicesIdPUT: the organization LAN
subnets are consulted only for a running device when the
forbidLanSubnetOverlaps configuration flag is set. -/
def putOrgLanSubnets (isRunning forbid : Bool)
    (allOrgLanSubnets : List OrgLanSubnet) : List OrgLanSubnet :=
  if isRunning ∧ forbid then allOrgLanSubnets else []

/-- devices.findOneAndUpdate({ _id: id, org: { $in: orgList } }, update):
applies f to the first device matching both conditions. -/
def updateFirstInOrg (db : List Device) (id : Nat) (orgList : List Nat)
    (f : Device → Device) : List Device :=
  match db with
  | [] => []
  | d :: rest =>
    if d._id = id ∧ d.org ∈ orgList then f d :: rest
    else d :: updateFirstInOrg rest id orgList f

/-- The document state touched by devicesIdPUT. -/
structure PutState where
  devices : List Device
  tunnels : List Tunnel
deriving Repr

/-- devicesIdPUT of backend/services/DevicesService.js.  validateDhcpConfig
lives in a module outside the analysed sources, so it is a parameter: the
function is called with the original device restricted to the remaining
dhcp configs and the pci addresses of the modified interfaces, exactly as
in the source.  Every thrown error aborts the transaction (collection
unchanged, no dispatch); the modify job is dispatched only after the
commit. -/
def devicesIdPUT (id : Nat) (orgList : List Nat) (deviceRequest : DeviceRequest)
    (isRunning : Bool) (forbidLanSubnetOverlaps : Bool)
    (allOrgLanSubnets : List OrgLanSubnet) (tunnelPort : Nat)
    (validateDhcpConfig : Device → List String → ValidationResult)
    (st : PutState) : ServiceOutcome :=
  match st.devices.find? (devMatch id orgList) with
  | none => ⟨Except.error "Cannot read property of null", st.devices, []⟩
  | some origDevice =>
    if ¬ origDevice.isApproved ∧ ¬ deviceRequest.isApproved then
      ⟨Except.error "Device must be first approved", st.devices, []⟩
    else
      let orgLanSubnets := putOrgLanSubnets isRunning forbidLanSubnetOverlaps allOrgLanSubnets
      match mergedRequestInterfaces st.tunnels tunnelPort origDevice deviceRequest with
      | Except.error e => ⟨Except.error e, st.devices, []⟩
      | Except.ok mergedIfs =>
        let devToValidate := deviceToValidate origDevice deviceRequest mergedIfs
        match (deviceRequest.dhcp.getD []).mapM
            (fun dhcpRequest => validateDhcpRequest devToValidate dhcpRequest) with
        | Except.error e => ⟨Except.error e, st.devices, []⟩
        | Except.ok _ =>
          let dhcpCfg : ValidationResult :=
            match deviceRequest.interfaces with
            | none => ⟨true, ""⟩
            | some _ =>
              let dhcpRemaining :=
                match deviceRequest.dhcp with
                | some reqDhcp => origDevice.dhcp.filter (fun orig =>
                    (reqDhcp.find? (fun upd => orig.interface = upd.interface)).isSome)
                | none => origDevice.dhcp
              let modifiedInterfaces :=
                (mergedIfs.filter (fun intf => intf.modified)).map (fun intf => intf.pciaddr)
              validateDhcpConfig { origDevice with dhcp := dhcpRemaining } modifiedInterfaces
          if ¬ dhcpCfg.valid then ⟨Except.error dhcpCfg.err, st.devices, []⟩
          else
            let vr := validateDevice devToValidate isRunning orgLanSubnets
            if ¬ vr.valid then ⟨Except.error vr.err, st.devices, []⟩
            else
              let newDevices := updateFirstInOrg st.devices id orgList (fun d =>
                { d with
                  isApproved := deviceRequest.isApproved
                  interfaces := mergedIfs
                  dhcp := deviceRequest.dhcp.getD d.dhcp })
              ⟨Except.ok (), newDevices,
                [{ deviceId := origDevice._id, method := "modify", action := "" }]⟩

/-! Concrete fixtures used by counterexamples and witnesses. -/

/-- A default-valued interface from which the concrete fixtures are built. -/
def baseIfc : Interface :=
  { _id := 0, name := "default", pciaddr := "0000:00:00.00", isAssigned := false
    type := "NONE", dhcp := "no", IPv4 := IpStr.empty, IPv4Mask := none
    gateway := IpStr.empty, metric := 0, routing := "NONE", pathlabels := []
    modified := false, PublicPort := 3000, NatType := "", internetAccess := ""
    useStun := false }

/-- A default-valued device from which the concrete fixtures are built. -/
def baseDevice : Device :=
  { _id := 1, org := 1, account := 1, name := "dev1", hostname := "dev1"
    machineId := "m1", isApproved := true, agentMajorVersion := 4
    interfaces := [], staticroutes := [], dhcp := [] }

/-- A dhcp sub-document awaiting its add job, as created by
devicesIdDhcpPOST. -/
def dhcpEntry5 : DhcpEntry :=
  { _id := 5, interface := "0000:00:08.00", rangeStart := "20.20.20.2"
    rangeEnd := "20.20.20.255", dns := ["8.8.8.8", "8.8.8.4"]
    macAssign := [], status := "add-wait" }

/-- A device holding exactly the dhcp sub-document dhcpEntry5 and no static
routes. -/
def deviceWithDhcp : Device := { baseDevice with dhcp := [dhcpEntry5] }

/-- A static-route sub-document awaiting deletion. -/
def route5 : StaticRoute := { _id := 5, status := "del-wait" }

/-- A device holding exactly the static route route5. -/
def deviceWithRoute : Device := { baseDevice with staticroutes := [route5] }

/-- A LAN interface that is not assigned. -/
def lanUnassigned : Interface :=
  { baseIfc with
    _id := 9
    name := "eth3"
    pciaddr := "0000:00:08.00"
    isAssigned := false
    type := "LAN" }

/-- A device whose only interface is the unassigned LAN interface. -/
def deviceC5 : Device := { baseDevice with interfaces := [lanUnassigned] }

/-- A dhcp request targeting the unassigned LAN interface. -/
def dhcpReqC5 : DhcpEntry := { dhcpEntry5 with interface := "0000:00:08.00" }

/-- An assigned WAN interface on 192.168.1.1/24 with gateway 192.168.1.254. -/
def wanIfc : Interface :=
  { baseIfc with
    _id := 1
    name := "eth0"
    pciaddr := "0000:00:03.00"
    isAssigned := true
    type := "WAN"
    IPv4 := IpStr.addr (ip4 192 168 1 1)
    IPv4Mask := some 24
    gateway := IpStr.addr (ip4 192 168 1 254) }

/-- An assigned LAN interface on 10.0.0.0/24. -/
def lanIfcA : Interface :=
  { baseIfc with
    _id := 2
    name := "eth1"
    pciaddr := "0000:00:04.00"
    isAssigned := true
    type := "LAN"
    IPv4 := IpStr.addr (ip4 10 0 0 0)
    IPv4Mask := some 24 }

/-- An assigned LAN interface on 10.0.0.128/25, overlapping lanIfcA. -/
def lanIfcB : Interface :=
  { baseIfc with
    _id := 3
    name := "eth2"
    pciaddr := "0000:00:05.00"
    isAssigned := true
    type := "LAN"
    IPv4 := IpStr.addr (ip4 10 0 0 128)
    IPv4Mask := some 25 }

/-- An assigned LAN interface on 10.0.1.0/24, disjoint from lanIfcA. -/
def lanIfcC : Interface :=
  { baseIfc with
    _id := 4
    name := "eth4"
    pciaddr := "0000:00:06.00"
    isAssigned := true
    type := "LAN"
    IPv4 := IpStr.addr (ip4 10 0 1 0)
    IPv4Mask := some 24 }

/-- An assigned WAN interface on 10.0.0.0/24 with gateway 10.0.0.254. -/
def wanIfc10 : Interface :=
  { wanIfc with
    IPv4 := IpStr.addr (ip4 10 0 0 0)
    gateway := IpStr.addr (ip4 10 0 0 254) }

/-- A device with one WAN interface and two LAN interfaces whose subnets
10.0.0.0/24 and 10.0.0.128/25 overlap. -/
def deviceOverlapLan : Device :=
  { baseDevice with interfaces := [wanIfc, lanIfcA, lanIfcB] }

/-- A device with one WAN interface and two LAN interfaces on the disjoint
subnets 10.0.0.0/24 and 10.0.1.0/24. -/
def deviceDisjointLan : Device :=
  { baseDevice with interfaces := [wanIfc, lanIfcA, lanIfcC] }

/-- A device whose WAN subnet 10.0.0.0/24 overlaps its LAN subnet
10.0.0.128/25. -/
def deviceWanLanOverlap : Device :=
  { baseDevice with interfaces := [wanIfc10, lanIfcB] }

/-- A tunnel between devices 1 and 2 whose activity flag is a parameter. -/
def tunnelAB (active : Bool) : Tunnel :=
  { _id := 1, org := 1, deviceA := 1, deviceB := 2, interfaceA := 1
    interfaceB := 2, pathlabel := none, isActive := active }

/-- Deletion state holding device 1 and an active tunnel referencing it. -/
def deleteStateActive : DeleteState :=
  { devices := [baseDevice], tunnels := [tunnelAB true], billing := [] }

/-- Deletion state holding device 1 and a deactivated tunnel referencing
it. -/
def deleteStateInactive : DeleteState :=
  { devices := [baseDevice], tunnels := [tunnelAB false], billing := [] }

/-- An assigned LAN interface carrying a (forbidden) default gateway. -/
def lanWithGw : Interface :=
  { lanIfcA with gateway := IpStr.addr (ip4 10 0 0 254) }

/-- A device whose assigned LAN interface carries a gateway, so that
validateDevice rejects it. -/
def deviceC6 : Device := { baseDevice with interfaces := [wanIfc, lanWithGw] }

/-- A modify request that does not touch interfaces or dhcp. -/
def reqC6 : DeviceRequest := { isApproved := true, interfaces := none, dhcp := none }

/-- The put state holding only deviceC6 and no tunnels. -/
def putStateC6 : PutState := { devices := [deviceC6], tunnels := [] }

/-- The request interface unassigning wanIfc. -/
def updWanUnassigned : Interface := { wanIfc with isAssigned := false }

/-- A device holding the assigned WAN and LAN interfaces. -/
def deviceC8 : Device := { baseDevice with interfaces := [wanIfc, lanIfcA] }

/-- An active tunnel using interface 1 of device 1. -/
def tunnelIfc1 : Tunnel :=
  { _id := 2, org := 1, deviceA := 1, deviceB := 2, interfaceA := 1
    interfaceB := 9, pathlabel := none, isActive := true }

/-- A modify request unassigning the WAN interface of deviceC8. -/
def reqC8 : DeviceRequest :=
  { isApproved := true, interfaces := some [updWanUnassigned], dhcp := none }

/-- The put state holding deviceC8 and the active tunnel on interface 1. -/
def putStateC8 : PutState := { devices := [deviceC8], tunnels := [tunnelIfc1] }

end Flexi

namespace Flexi

/-! Helper lemmas. -/

/-- updateFirst is idempotent when the update is idempotent and preserves
the document id. -/
theorem updateFirst_idem (db : List Device) (i : Nat) (f : Device → Device)
    (hid : ∀ d, (f d)._id = d._id) (hf : ∀ d, f (f d) = f d) :
    updateFirst (updateFirst db i f) i f = updateFirst db i f := by
  induction db with
  | nil => rfl
  | cons d rest ih =>
    by_cases h : d._id = i
    · simp [updateFirst, h, hid, hf]
    · simp [updateFirst, h, ih]

/-- Filtering a list twice with the same predicate filters it once. -/
theorem filter_filter_self {α : Type} (p : α → Bool) (l : List α) :
    (l.filter p).filter p = l.filter p := by
  induction l with
  | nil => rfl
  | cons a t ih =>
    by_cases h : p a
    · simp [List.filter, h, ih]
    · simp [List.filter, h, ih]

/-- pullStaticroute is idempotent. -/
theorem pullStaticroute_idem (routeId : Nat) (d : Device) :
    pullStaticroute routeId (pullStaticroute routeId d) = pullStaticroute routeId d := by
  simp [pullStaticroute, filter_filter_self]

/-- setStaticrouteStatus is idempotent. -/
theorem setStaticrouteStatus_idem (routeId : Nat) (status : String) (d : Device) :
    setStaticrouteStatus routeId status (setStaticrouteStatus routeId status d) =
    setStaticrouteStatus routeId status d := by
  simp only [setStaticrouteStatus, List.map_map]
  congr 1
  apply List.map_congr_left
  intro s _
  by_cases h : s._id = routeId
  · simp [Function.comp, h]
  · simp [Function.comp, h]

/-- uniqByAux keeps at most as many elements as it is given. -/
theorem uniqByAux_length_le {α κ : Type} [DecidableEq κ] (f : α → κ)
    (seen : List κ) (l : List α) :
    (uniqByAux f seen l).length ≤ l.length := by
  induction l generalizing seen with
  | nil => simp [uniqByAux]
  | cons x xs ih =>
    by_cases h : f x ∈ seen
    · simp only [uniqByAux, h, if_true]
      exact Nat.le_trans (ih seen) (Nat.le_succ _)
    · simp only [uniqByAux, h, if_false, List.length_cons]
      exact Nat.succ_le_succ (ih _)

/-- uniqByAux keeps everything exactly when the keys are pairwise distinct
and none of them was seen before. -/
theorem uniqByAux_length_eq_iff {α κ : Type} [DecidableEq κ] (f : α → κ)
    (seen : List κ) (l : List α) :
    (uniqByAux f seen l).length = l.length ↔
      (l.map f).Nodup ∧ ∀ x ∈ l, f x ∉ seen := by
  induction l generalizing seen with
  | nil => simp [uniqByAux]
  | cons x xs ih =>
    by_cases h : f x ∈ seen
    · simp only [uniqByAux, h, if_true, List.length_cons]
      constructor
      · intro hlen
        have hle := uniqByAux_length_le f seen xs
        omega
      · rintro ⟨-, hall⟩
        exact absurd h (hall x (List.mem_cons_self x xs))
    · simp only [uniqByAux, h, if_false, List.length_cons, Nat.succ_inj,
        ih, List.map_cons, List.nodup_cons, List.mem_map, List.mem_cons]
      constructor
      · rintro ⟨hnd, hall⟩
        refine ⟨⟨?_, hnd⟩, ?_⟩
        · rintro ⟨y, hy, hfy⟩
          exact (hall y hy) (by simp [hfy])
        · rintro y (rfl | hy)
          · exact h
          · intro hmem
            exact (hall y hy) (by simp [hmem])
      · rintro ⟨⟨hnx, hnd⟩, hall⟩
        refine ⟨hnd, fun y hy => ?_⟩
        rintro (hfy | hseen)
        · exact hnx ⟨y, hy, hfy⟩
        · exact (hall y (Or.inr hy)) hseen

/-- uniqBy keeps everything exactly when the keys are pairwise distinct. -/
theorem uniqBy_length_eq_iff {α κ : Type} [DecidableEq κ] (f : α → κ)
    (l : List α) :
    (uniqBy f l).length = l.length ↔ (l.map f).Nodup := by
  simp [uniqBy, uniqByAux_length_eq_iff]

/-- findSome? returns a value when some list element produces one. -/
theorem findSome?_isSome_of_mem {α β : Type} (f : α → Option β) {l : List α}
    {a : α} (ha : a ∈ l) (hf : (f a).isSome = true) :
    ∃ r, l.findSome? f = some r := by
  induction l with
  | nil => cases ha
  | cons x xs ih =>
    cases hx : f x with
    | some b => exact ⟨b, by simp [List.findSome?, hx]⟩
    | none =>
      rcases List.mem_cons.mp ha with rfl | hmem
      · rw [hx] at hf
        simp at hf
      · rcases ih hmem with ⟨r, hr⟩
        exact ⟨r, by simp [List.findSome?, hx, hr]⟩

/-- Every value produced by findSome? comes from some list element. -/
theorem mem_of_findSome?_eq_some {α β : Type} {f : α → Option β} {l : List α}
    {r : β} (h : l.findSome? f = some r) : ∃ a, a ∈ l ∧ f a = some r := by
  induction l with
  | nil => simp [List.findSome?] at h
  | cons x xs ih =>
    cases hx : f x with
    | some b =>
      simp only [List.findSome?, hx] at h
      exact ⟨x, List.mem_cons_self x xs, by rw [hx, h]⟩
    | none =>
      simp only [List.findSome?, hx] at h
      rcases ih h with ⟨a, hmem, hfa⟩
      exact ⟨a, List.mem_cons_of_mem x hmem, hfa⟩

/-- Every result produced by the per-interface check loop of validateDevice
is a rejection. -/
theorem checkAssignedIfc_valid_false {ifc : Interface} {r : ValidationResult}
    (h : checkAssignedIfc ifc = some r) : r.valid = false := by
  unfold checkAssignedIfc at h
  repeat' split at h
  all_goals cases h
  all_goals rfl

/-- When findSome? produces nothing, every element produces nothing. -/
theorem eq_none_of_findSome?_eq_none {α β : Type} {f : α → Option β}
    {l : List α} (h : l.findSome? f = none) {a : α} (ha : a ∈ l) :
    f a = none := by
  induction l with
  | nil => cases ha
  | cons x xs ih =>
    cases hx : f x with
    | some b => simp [List.findSome?, hx] at h
    | none =>
      simp only [List.findSome?, hx] at h
      rcases List.mem_cons.mp ha with rfl | hmem
      · exact hx
      · exact ih h hmem

/-- Every result produced by the WAN/LAN overlap loop of validateDevice is
the overlap rejection. -/
theorem wanLanOverlapLoop_result {wans lans : List Interface}
    {r : ValidationResult}
    (h : wans.findSome? (fun wanIfc => lans.findSome? (fun lanIfc =>
      if cidrOverlap (ifcSubnet wanIfc) (ifcSubnet lanIfc) then
        some (⟨false, "WAN and LAN IP addresses have an overlap"⟩ : ValidationResult)
      else none)) = some r) :
    r = ⟨false, "WAN and LAN IP addresses have an overlap"⟩ := by
  rcases mem_of_findSome?_eq_some h with ⟨w, -, hw⟩
  rcases mem_of_findSome?_eq_some hw with ⟨l, -, hl⟩
  split at hl
  · cases hl
    rfl
  · cases hl

/-- Every result produced by the organization LAN subnet loop of
validateDevice is a rejection. -/
theorem orgOverlapLoop_result {device : Device} {subs : List OrgLanSubnet}
    {lans : List Interface} {r : ValidationResult}
    (h : subs.findSome? (fun orgDevice => lans.findSome? (fun currentLanIfc =>
      if ifcSubnet currentLanIfc ≠ orgDevice.subnet ∧
          cidrOverlap (ifcSubnet currentLanIfc) orgDevice.subnet then
        some (⟨false, "The device " ++ device.name ++
          " has a LAN subnet overlap with " ++ orgDevice.name⟩ : ValidationResult)
      else none)) = some r) :
    r.valid = false := by
  rcases mem_of_findSome?_eq_some h with ⟨o, -, ho⟩
  rcases mem_of_findSome?_eq_some ho with ⟨l, -, hl⟩
  split at hl
  · cases hl
    rfl
  · cases hl

/-- Members of updateFirst are either untouched members of the original
collection or the update applied to a member carrying the matched id. -/
theorem mem_updateFirst {db : List Device} {i : Nat} {f : Device → Device}
    {d : Device} (hd : d ∈ updateFirst db i f) :
    d ∈ db ∨ ∃ d0, d0 ∈ db ∧ d0._id = i ∧ d = f d0 := by
  induction db with
  | nil => cases hd
  | cons x xs ih =>
    by_cases hx : x._id = i
    · simp only [updateFirst, hx, if_true] at hd
      rcases List.mem_cons.mp hd with rfl | hmem
      · exact Or.inr ⟨x, List.mem_cons_self x xs, hx, rfl⟩
      · exact Or.inl (List.mem_cons_of_mem x hmem)
    · simp only [updateFirst, hx, if_false] at hd
      rcases List.mem_cons.mp hd with rfl | hmem
      · exact Or.inl (List.mem_cons_self d xs)
      · rcases ih hmem with h | ⟨d0, hd0, hid, hfd⟩
        · exact Or.inl (List.mem_cons_of_mem x h)
        · exact Or.inr ⟨d0, List.mem_cons_of_mem x hd0, hid, hfd⟩

/-- mapM over Except fails when any element fails. -/
theorem mapM_error_of_mem {α β : Type} {f : α → Except String β} {l : List α}
    {a : α} (ha : a ∈ l) (he : ∃ e, f a = Except.error e) :
    ∃ e, l.mapM f = Except.error e := by
  induction l with
  | nil => cases ha
  | cons x xs ih =>
    cases hx : f x with
    | error e => exact ⟨e, by rw [List.mapM_cons, hx]; rfl⟩
    | ok b =>
      rcases List.mem_cons.mp ha with rfl | hmem
      · rcases he with ⟨e, he⟩
        rw [he] at hx
        cases hx
      · rcases ih hmem with ⟨e, hxs⟩
        refine ⟨e, ?_⟩
        rw [List.mapM_cons, hx]
        show xs.mapM f >>= _ = _
        rw [hxs]
        rfl

/-- The merge loop of devicesIdPUT throws when an interface referenced by
an active tunnel is unassigned. -/
theorem mergeIntf_unassign_error {tunnels : List Tunnel} {tunnelPort : Nat}
    {reqIfs : List Interface} {origIntf updIntf : Interface} {t : Tunnel}
    (hfindI : reqIfs.find? (fun rif => origIntf._id = rif._id) = some updIntf)
    (horig : origIntf.isAssigned = true) (hupd : updIntf.isAssigned = false)
    (ht : t ∈ tunnels) (huse : tunnelUsesIfc origIntf._id t = true) :
    mergeIntf tunnels tunnelPort reqIfs origIntf = Except.error
      "Unassigned interface used by existing tunnels, please delete related tunnels before" := by
  have hpos : 0 < (tunnels.filter (tunnelUsesIfc origIntf._id)).length :=
    List.length_pos_of_mem (List.mem_filter.mpr ⟨ht, huse⟩)
  simp [mergeIntf, hfindI, horig, hupd, hpos]

/-- The merge loop of devicesIdPUT throws when a path label removed from a
still-assigned interface is used by an active tunnel on that interface. -/
theorem mergeIntf_label_error {tunnels : List Tunnel} {tunnelPort : Nat}
    {reqIfs : List Interface} {origIntf updIntf : Interface} {t : Tunnel}
    {p : Nat}
    (hfindI : reqIfs.find? (fun rif => origIntf._id = rif._id) = some updIntf)
    (horig : origIntf.isAssigned = true) (hupd : updIntf.isAssigned = true)
    (hp : p ∈ origIntf.pathlabels) (hnp : p ∉ updIntf.pathlabels)
    (ht : t ∈ tunnels) (hact : t.isActive = true)
    (href : t.interfaceA = origIntf._id ∨ t.interfaceB = origIntf._id)
    (hlbl : t.pathlabel = some p) :
    mergeIntf tunnels tunnelPort reqIfs origIntf = Except.error
      "Removed label used by existing tunnels, please delete related tunnels before" := by
  have hrem : p ∈ origIntf.pathlabels.filter
      (fun q => !decide (q ∈ updIntf.pathlabels)) :=
    List.mem_filter.mpr ⟨hp, by simp [hnp]⟩
  have hremlen : 0 < (origIntf.pathlabels.filter
      (fun q => !decide (q ∈ updIntf.pathlabels))).length :=
    List.length_pos_of_mem hrem
  have huse : tunnelUsesIfcLabel origIntf._id
      (origIntf.pathlabels.filter (fun q => !decide (q ∈ updIntf.pathlabels))) t = true := by
    simp [tunnelUsesIfcLabel, hact, href, hlbl, hp, hnp]
  have htpos : 0 < (tunnels.filter (tunnelUsesIfcLabel origIntf._id
      (origIntf.pathlabels.filter (fun q => !decide (q ∈ updIntf.pathlabels))))).length :=
    List.length_pos_of_mem (List.mem_filter.mpr ⟨ht, huse⟩)
  simp [mergeIntf, hfindI, horig, hupd, hremlen, htpos]

/-! Claim theorems. -/

/-- C4 (counterexample): validateDevice is claimed to reject a device on
which two assigned LAN interfaces have overlapping subnets, in particular
10.0.0.0/24 against 10.0.0.128/25; the code never compares two LAN subnets
of the same device (only WAN against LAN), so the device below, whose two
assigned LAN interfaces sit exactly on those overlapping subnets, is
accepted. -/
theorem validateDevice_accepts_overlapping_lans :
    validateDevice deviceOverlapLan = ⟨true, ""⟩ ∧
    lanIfcA ∈ deviceOverlapLan.interfaces ∧
    lanIfcB ∈ deviceOverlapLan.interfaces ∧
    lanIfcA.isAssigned = true ∧ lanIfcB.isAssigned = true ∧
    lanIfcA.type = "LAN" ∧ lanIfcB.type = "LAN" ∧
    ifcSubnet lanIfcA = (ip4 10 0 0 0, 24) ∧
    ifcSubnet lanIfcB = (ip4 10 0 0 128, 25) ∧
    cidrOverlap (ifcSubnet lanIfcA) (ifcSubnet lanIfcB) = true := by
  refine ⟨by decide, by decide, by decide, rfl, rfl, rfl, rfl, by decide, by decide, by decide⟩

/-- C4 (amended): subnet overlap on one device is rejected by validateDevice
between an assigned WAN and an assigned LAN interface (by cidr overlap
arithmetic, not string equality): any device carrying such a pair is
rejected, the concrete device whose WAN 10.0.0.0/24 overlaps its LAN
10.0.0.128/25 is rejected, and the device with the disjoint LAN subnets
10.0.0.0/24 and 10.0.1.0/24 is accepted.  Two assigned LAN interfaces of
the same device are not compared with each other. -/
theorem validateDevice_wan_lan_overlap_rejected :
    (∀ (device : Device) (co : Bool) (subs : List OrgLanSubnet)
        (w l : Interface),
      w ∈ device.interfaces → w.isAssigned = true → w.type = "WAN" →
      l ∈ device.interfaces → l.isAssigned = true → l.type = "LAN" →
      cidrOverlap (ifcSubnet w) (ifcSubnet l) = true →
      (validateDevice device co subs).valid = false) ∧
    validateDevice deviceWanLanOverlap = ⟨false, "WAN and LAN IP addresses have an overlap"⟩ ∧
    validateDevice deviceDisjointLan = ⟨true, ""⟩ := by
  refine ⟨?_, by decide, by decide⟩
  intro device co subs w l hwmem hwa hwt hlmem hla hlt hov
  simp only [validateDevice]
  split
  · rfl
  · split
    · next r hr =>
        rcases mem_of_findSome?_eq_some hr with ⟨a, -, ha⟩
        exact checkAssignedIfc_valid_false ha
    · next hnone =>
      split
      · next r hr =>
        rw [wanLanOverlapLoop_result hr]
      · next hnone2 =>
        exfalso
        have hw2 : w ∈ (device.interfaces.filter (fun ifc => ifc.isAssigned)).filter
            (fun ifc => decide (ifc.type = "WAN")) := by
          refine List.mem_filter.mpr ⟨List.mem_filter.mpr ⟨hwmem, ?_⟩, ?_⟩ <;>
            simp [hwa, hwt]
        have hl2 : l ∈ (device.interfaces.filter (fun ifc => ifc.isAssigned)).filter
            (fun ifc => decide (ifc.type = "LAN")) := by
          refine List.mem_filter.mpr ⟨List.mem_filter.mpr ⟨hlmem, ?_⟩, ?_⟩ <;>
            simp [hla, hlt]
        have h1 := eq_none_of_findSome?_eq_none hnone2 hw2
        have h2 := eq_none_of_findSome?_eq_none h1 hl2
        simp [hov] at h2

/-- C1: the on-complete handler of the dhcp job module is claimed to delete
the dhcp sub-document on a removal and to set its status to complete
otherwise.  The code instead compares the message against remove-route
(which a dhcp job never carries: apply produces add-dhcp-config or
remove-dhcp-config) and updates the staticroutes array, so on both the
removal and the add completion the dhcp sub-document of the device is left
untouched, still in status add-wait. -/
theorem dhcpComplete_leaves_dhcp_subdocument_untouched :
    ∃ job, dhcpApply deviceWithDhcp dhcpEntry5 "del" = Except.ok job ∧
      job.responseData.message = "remove-dhcp-config" ∧
      dhcpComplete (some job.responseData) [deviceWithDhcp] = [deviceWithDhcp] ∧
      dhcpComplete
        (some { deviceId := 1, routeId := 5, message := "add-dhcp-config" })
        [deviceWithDhcp] = [deviceWithDhcp] ∧
      deviceWithDhcp.dhcp.map (fun e => e.status) = ["add-wait"] := by
  refine ⟨_, rfl, rfl, by decide, by decide, by decide⟩

/-- C2: the on-failed handler is claimed to set the affected dhcp
sub-document status to add-failed or remove-failed according to the
attempted operation.  The code compares the message against remove-route
(never produced by a dhcp job) and updates the staticroutes array: a failed
dhcp removal leaves the dhcp sub-document untouched, and even a
staticroutes element that happened to carry the same id would be marked
add-failed rather than remove-failed. -/
theorem dhcpError_leaves_dhcp_subdocument_untouched :
    dhcpError { deviceId := 1, routeId := 5, message := "remove-dhcp-config" }
      [deviceWithDhcp] = [deviceWithDhcp] ∧
    dhcpError { deviceId := 1, routeId := 5, message := "add-dhcp-config" }
      [deviceWithDhcp] = [deviceWithDhcp] ∧
    dhcpError { deviceId := 1, routeId := 5, message := "remove-dhcp-config" }
      [deviceWithRoute] =
      [{ deviceWithRoute with staticroutes := [{ _id := 5, status := "add-failed" }] }] := by
  refine ⟨by decide, by decide, by decide⟩

/-- C3: the on-removed handler is claimed to set the dhcp sub-document
status to job-deleted for jobs cancelled in a non-terminal state.  The code
does select exactly the non-terminal kue states (inactive, delayed, active)
and leaves terminal jobs alone, but writes job-deleted into the
staticroutes array, so the dhcp sub-document keeps its status. -/
theorem dhcpRemove_leaves_dhcp_subdocument_untouched :
    dhcpRemove { _state := "inactive", responseData := { deviceId := 1, routeId := 5, message := "" } }
      [deviceWithDhcp] = [deviceWithDhcp] ∧
    dhcpRemove { _state := "active", responseData := { deviceId := 1, routeId := 5, message := "" } }
      [deviceWithDhcp] = [deviceWithDhcp] ∧
    dhcpRemove { _state := "complete", responseData := { deviceId := 1, routeId := 5, message := "" } }
      [deviceWithDhcp] = [deviceWithDhcp] ∧
    dhcpRemove { _state := "inactive", responseData := { deviceId := 1, routeId := 5, message := "" } }
      [deviceWithRoute] =
      [{ deviceWithRoute with staticroutes := [{ _id := 5, status := "job-deleted" }] }] := by
  refine ⟨by decide, by decide, by decide, by decide⟩

/-- C5 (counterexample): the dhcp validation is claimed to reject a target
interface that is not assigned; the code accepts the request for the
unassigned LAN interface of deviceC5 (it only checks existence and the LAN
type, never isAssigned). -/
theorem validateDhcpRequest_accepts_unassigned :
    validateDhcpRequest deviceC5 dhcpReqC5 = Except.ok () ∧
    deviceC5.interfaces.find? (fun x => x.pciaddr = dhcpReqC5.interface) =
      some lanUnassigned ∧
    lanUnassigned.isAssigned = false := by
  exact ⟨rfl, by decide, rfl⟩

/-- C5 (amended): validateDhcpRequest succeeds exactly when the requested
interface name is non-empty, the first interface of the device carrying
that pci address exists and is of type LAN (assignment is not checked), and
the macAssign entries have pairwise distinct MACs, host names and IPv4
addresses. -/
theorem validateDhcpRequest_ok_iff (device : Device) (dhcpRequest : DhcpEntry) :
    validateDhcpRequest device dhcpRequest = Except.ok () ↔
      dhcpRequest.interface ≠ "" ∧
      (∃ i, device.interfaces.find? (fun x => x.pciaddr = dhcpRequest.interface) =
          some i ∧ i.type = "LAN") ∧
      (dhcpRequest.macAssign.map (fun m => m.mac)).Nodup ∧
      (dhcpRequest.macAssign.map (fun m => m.host)).Nodup ∧
      (dhcpRequest.macAssign.map (fun m => m.ipv4)).Nodup := by
  unfold validateDhcpRequest
  by_cases hint : dhcpRequest.interface = ""
  · simp [hint]
  · simp only [hint, if_false]
    match hfind : device.interfaces.find? (fun x => x.pciaddr = dhcpRequest.interface) with
    | none => simp [hfind]
    | some i =>
      by_cases htype : i.type = "LAN"
      · by_cases h1 : (uniqBy (fun m => m.mac) dhcpRequest.macAssign).length =
            dhcpRequest.macAssign.length <;>
        by_cases h2 : (uniqBy (fun m => m.host) dhcpRequest.macAssign).length =
            dhcpRequest.macAssign.length <;>
        by_cases h3 : (uniqBy (fun m => m.ipv4) dhcpRequest.macAssign).length =
            dhcpRequest.macAssign.length <;>
        simp [hint, htype, h1, h2, h3, hfind, ← uniqBy_length_eq_iff]
      · simp [hint, htype, hfind]

/-- C10: adding a DHCP definition for an interface that already carries one
is rejected by devicesIdDhcpPOST: the transaction aborts (collection
unchanged), no job is dispatched, and the request fails; a successful add,
conversely, preserves the at-most-one-definition-per-interface invariant of
every device of the collection. -/
theorem devicesIdDhcpPOST_one_dhcp_per_interface
    (id : Nat) (orgList : List Nat) (req : DhcpEntry) (newId : Nat)
    (db : List Device) (dev : Device)
    (hfind : db.find? (devMatch id orgList) = some dev) :
    ((∃ e ∈ dev.dhcp, e.interface = req.interface) →
      (devicesIdDhcpPOST id orgList req newId db).devices = db ∧
      (devicesIdDhcpPOST id orgList req newId db).dispatched = [] ∧
      ∃ msg, (devicesIdDhcpPOST id orgList req newId db).result = Except.error msg) ∧
    ((db.map (fun d => d._id)).Nodup →
      (∀ d ∈ db, (d.dhcp.map (fun e => e.interface)).Nodup) →
      (devicesIdDhcpPOST id orgList req newId db).result = Except.ok () →
      ∀ d ∈ (devicesIdDhcpPOST id orgList req newId db).devices,
        (d.dhcp.map (fun e => e.interface)).Nodup) := by
  have hdevmem : dev ∈ db := List.mem_of_find?_eq_some hfind
  constructor
  · rintro ⟨e, he, hei⟩
    by_cases happ : dev.isApproved = true
    · cases hv : validateDhcpRequest dev req with
      | error msg =>
        simp [devicesIdDhcpPOST, hfind, happ, hv]
      | ok u =>
        have hmem : e ∈ dev.dhcp.filter (fun s => decide (s.interface = req.interface)) :=
          List.mem_filter.mpr ⟨he, by simp [hei]⟩
        have hlen : (dev.dhcp.filter (fun s => decide (s.interface = req.interface))).length > 0 :=
          List.length_pos_of_mem hmem
        simp [devicesIdDhcpPOST, hfind, happ, hv, hlen]
    · simp [devicesIdDhcpPOST, hfind, happ]
  · intro hids hnodup hok d hd
    by_cases happ : dev.isApproved = true
    · cases hv : validateDhcpRequest dev req with
      | error msg => simp [devicesIdDhcpPOST, hfind, happ, hv] at hok
      | ok u =>
        by_cases hlen : (dev.dhcp.filter (fun s => decide (s.interface = req.interface))).length > 0
        · simp [devicesIdDhcpPOST, hfind, happ, hv, hlen] at hok
        · simp only [devicesIdDhcpPOST, hfind, happ, hv, hlen] at hd
          have hflt : dev.dhcp.filter (fun s => decide (s.interface = req.interface)) = [] := by
            rcases Nat.eq_zero_or_pos (dev.dhcp.filter
              (fun s => decide (s.interface = req.interface))).length with hz | hp
            · exact List.length_eq_zero.mp hz
            · exact absurd hp hlen
          have hnotin : ∀ s ∈ dev.dhcp, ¬ s.interface = req.interface := by
            intro s hs
            have := List.filter_eq_nil_iff.mp hflt s hs
            simpa using this
          rcases mem_updateFirst hd with hmem | ⟨d0, hd0, hid0, rfl⟩
          · exact hnodup d hmem
          · have hd0dev : d0 = dev :=
              List.inj_on_of_nodup_map hids hd0 hdevmem hid0
            subst hd0dev
            simp only [List.map_append]
            rw [List.nodup_append]
            refine ⟨hnodup d0 hd0, List.nodup_singleton _, ?_⟩
            intro a ha hb
            rcases List.mem_map.mp ha with ⟨s, hs, rfl⟩
            have hb2 : s.interface = req.interface := by simpa using hb
            exact hnotin s hs hb2
    · simp [devicesIdDhcpPOST, hfind, happ] at hok

/-- C4 witness: the amended rejection applied at the concrete device whose
assigned WAN interface on 10.0.0.0/24 overlaps its assigned LAN interface
on 10.0.0.128/25. -/
theorem validateDevice_wan_lan_overlap_rejected_witness :
    (validateDevice deviceWanLanOverlap false []).valid = false :=
  validateDevice_wan_lan_overlap_rejected.1 deviceWanLanOverlap false []
    wanIfc10 lanIfcB (by decide) (by decide) (by decide) (by decide)
    (by decide) (by decide) (by decide)

/-- C10 witness: the rejection applied at a device that already carries a
dhcp definition for the requested interface. -/
theorem devicesIdDhcpPOST_one_dhcp_per_interface_witness :
    (devicesIdDhcpPOST 1 [1] dhcpReqC5 7 [deviceWithDhcp]).devices = [deviceWithDhcp] ∧
    (devicesIdDhcpPOST 1 [1] dhcpReqC5 7 [deviceWithDhcp]).dispatched = [] ∧
    ∃ msg, (devicesIdDhcpPOST 1 [1] dhcpReqC5 7 [deviceWithDhcp]).result =
      Except.error msg :=
  (devicesIdDhcpPOST_one_dhcp_per_interface 1 [1] dhcpReqC5 7 [deviceWithDhcp]
    deviceWithDhcp (by decide)).1 ⟨dhcpEntry5, by decide, by decide⟩

/-- C6: a device-modify request whose resulting configuration fails the
intent validation (validateDevice on the merged device) is rejected by
devicesIdPUT: the transaction aborts with the device collection unchanged
and the dispatcher is never invoked, so no job record is created. -/
theorem devicesIdPUT_invalid_intent_no_job
    (id : Nat) (orgList : List Nat) (req : DeviceRequest)
    (isRunning forbid : Bool) (subs : List OrgLanSubnet) (tunnelPort : Nat)
    (vCfg : Device → List String → ValidationResult) (st : PutState)
    (origDevice : Device)
    (hfind : st.devices.find? (devMatch id orgList) = some origDevice)
    (hinvalid : ∀ mergedIfs,
      mergedRequestInterfaces st.tunnels tunnelPort origDevice req = Except.ok mergedIfs →
      (validateDevice (deviceToValidate origDevice req mergedIfs) isRunning
        (putOrgLanSubnets isRunning forbid subs)).valid = false) :
    (devicesIdPUT id orgList req isRunning forbid subs tunnelPort vCfg st).devices
        = st.devices ∧
    (devicesIdPUT id orgList req isRunning forbid subs tunnelPort vCfg st).dispatched = [] ∧
    ∃ msg, (devicesIdPUT id orgList req isRunning forbid subs tunnelPort vCfg st).result
        = Except.error msg := by
  simp only [devicesIdPUT, hfind]
  split
  · simp
  · cases hmerge : mergedRequestInterfaces st.tunnels tunnelPort origDevice req with
    | error e =>
      simp only [hmerge]
      simp
    | ok mergedIfs =>
      simp only [hmerge]
      cases hval : (req.dhcp.getD []).mapM
          (fun dhcpRequest => validateDhcpRequest
            (deviceToValidate origDevice req mergedIfs) dhcpRequest) with
      | error e =>
        simp only [hval]
        simp
      | ok us =>
        simp only [hval]
        split
        · simp
        · split
          · simp
          · next hvalid =>
            exact absurd (hinvalid mergedIfs hmerge) (by simpa using hvalid)

/-- C6 witness: the rejection applied at a device whose assigned LAN
interface carries a gateway, with a request that touches neither interfaces
nor dhcp. -/
theorem devicesIdPUT_invalid_intent_no_job_witness :
    (devicesIdPUT 1 [1] reqC6 false false [] 3000
        (fun _ _ => ⟨true, ""⟩) putStateC6).devices = putStateC6.devices ∧
    (devicesIdPUT 1 [1] reqC6 false false [] 3000
        (fun _ _ => ⟨true, ""⟩) putStateC6).dispatched = [] ∧
    ∃ msg, (devicesIdPUT 1 [1] reqC6 false false [] 3000
        (fun _ _ => ⟨true, ""⟩) putStateC6).result = Except.error msg :=
  devicesIdPUT_invalid_intent_no_job 1 [1] reqC6 false false [] 3000
    (fun _ _ => ⟨true, ""⟩) putStateC6 deviceC6 (by decide)
    (fun mergedIfs h => by
      have h2 : deviceC6.interfaces = mergedIfs := Except.ok.inj h
      subst h2
      decide)

/-- When the interface merge throws, devicesIdPUT rejects with the device
collection unchanged and no dispatch. -/
theorem devicesIdPUT_merge_error_outcome
    (id : Nat) (orgList : List Nat) (req : DeviceRequest)
    (isRunning forbid : Bool) (subs : List OrgLanSubnet) (tunnelPort : Nat)
    (vCfg : Device → List String → ValidationResult) (st : PutState)
    (origDevice : Device) {e : String}
    (hfind : st.devices.find? (devMatch id orgList) = some origDevice)
    (hmerge : mergedRequestInterfaces st.tunnels tunnelPort origDevice req =
      Except.error e) :
    (devicesIdPUT id orgList req isRunning forbid subs tunnelPort vCfg st).devices
        = st.devices ∧
    (devicesIdPUT id orgList req isRunning forbid subs tunnelPort vCfg st).dispatched = [] ∧
    ∃ msg, (devicesIdPUT id orgList req isRunning forbid subs tunnelPort vCfg st).result
        = Except.error msg := by
  simp only [devicesIdPUT, hfind]
  split
  · simp
  · simp only [hmerge]
    simp

/-- C8: during devicesIdPUT, unassigning an interface that an active tunnel
references, or removing from a still-assigned interface a path label that
an active tunnel on that interface uses, throws inside the transaction: the
request fails, the device collection is not updated, and no modify job is
dispatched. -/
theorem devicesIdPUT_active_tunnel_dependency_guard
    (id : Nat) (orgList : List Nat) (req : DeviceRequest)
    (isRunning forbid : Bool) (subs : List OrgLanSubnet) (tunnelPort : Nat)
    (vCfg : Device → List String → ValidationResult) (st : PutState)
    (origDevice : Device) (reqIfs : List Interface)
    (origIntf updIntf : Interface) (t : Tunnel)
    (hfind : st.devices.find? (devMatch id orgList) = some origDevice)
    (hreq : req.interfaces = some reqIfs)
    (hmem : origIntf ∈ origDevice.interfaces)
    (hfindI : reqIfs.find? (fun rif => origIntf._id = rif._id) = some updIntf)
    (horig : origIntf.isAssigned = true)
    (ht : t ∈ st.tunnels) (hact : t.isActive = true)
    (href : t.interfaceA = origIntf._id ∨ t.interfaceB = origIntf._id) :
    (updIntf.isAssigned = false →
      (devicesIdPUT id orgList req isRunning forbid subs tunnelPort vCfg st).devices
          = st.devices ∧
      (devicesIdPUT id orgList req isRunning forbid subs tunnelPort vCfg st).dispatched
          = [] ∧
      ∃ msg, (devicesIdPUT id orgList req isRunning forbid subs tunnelPort vCfg st).result
          = Except.error msg) ∧
    (∀ p, updIntf.isAssigned = true → p ∈ origIntf.pathlabels →
      p ∉ updIntf.pathlabels → t.pathlabel = some p →
      (devicesIdPUT id orgList req isRunning forbid subs tunnelPort vCfg st).devices
          = st.devices ∧
      (devicesIdPUT id orgList req isRunning forbid subs tunnelPort vCfg st).dispatched
          = [] ∧
      ∃ msg, (devicesIdPUT id orgList req isRunning forbid subs tunnelPort vCfg st).result
          = Except.error msg) := by
  constructor
  · intro hupd
    have hErr : mergeIntf st.tunnels tunnelPort reqIfs origIntf = Except.error
        "Unassigned interface used by existing tunnels, please delete related tunnels before" :=
      mergeIntf_unassign_error hfindI horig hupd ht
        (by simp [tunnelUsesIfc, hact, href])
    have hm : ∃ e, mergedRequestInterfaces st.tunnels tunnelPort origDevice req =
        Except.error e := by
      simp only [mergedRequestInterfaces, hreq]
      exact mapM_error_of_mem hmem ⟨_, hErr⟩
    rcases hm with ⟨e, he⟩
    exact devicesIdPUT_merge_error_outcome id orgList req isRunning forbid subs
      tunnelPort vCfg st origDevice hfind he
  · intro p hupd hp hnp hlbl
    have hErr : mergeIntf st.tunnels tunnelPort reqIfs origIntf = Except.error
        "Removed label used by existing tunnels, please delete related tunnels before" :=
      mergeIntf_label_error hfindI horig hupd hp hnp ht hact href hlbl
    have hm : ∃ e, mergedRequestInterfaces st.tunnels tunnelPort origDevice req =
        Except.error e := by
      simp only [mergedRequestInterfaces, hreq]
      exact mapM_error_of_mem hmem ⟨_, hErr⟩
    rcases hm with ⟨e, he⟩
    exact devicesIdPUT_merge_error_outcome id orgList req isRunning forbid subs
      tunnelPort vCfg st origDevice hfind he

/-- C8 witness: the guard applied at deviceC8, whose WAN interface is used
by an active tunnel, with a request unassigning that interface. -/
theorem devicesIdPUT_active_tunnel_dependency_guard_witness :
    (devicesIdPUT 1 [1] reqC8 false false [] 3000
        (fun _ _ => ⟨true, ""⟩) putStateC8).devices = putStateC8.devices ∧
    (devicesIdPUT 1 [1] reqC8 false false [] 3000
        (fun _ _ => ⟨true, ""⟩) putStateC8).dispatched = [] ∧
    ∃ msg, (devicesIdPUT 1 [1] reqC8 false false [] 3000
        (fun _ _ => ⟨true, ""⟩) putStateC8).result = Except.error msg :=
  (devicesIdPUT_active_tunnel_dependency_guard 1 [1] reqC8 false false [] 3000
    (fun _ _ => ⟨true, ""⟩) putStateC8 deviceC8 [updWanUnassigned]
    wanIfc updWanUnassigned tunnelIfc1 (by decide) rfl (by decide) (by decide)
    (by decide) (by decide) (by decide) (by decide)).1 (by decide)

/-- C7: while any active tunnel of the organization scope references the
device on either side, devicesIdDELETE rejects the deletion and the whole
transaction aborts with every document (devices, tunnels, billing)
unchanged; once no referencing tunnel is active, deletion of an existing
device succeeds, removes exactly the matching devices and leaves the
tunnels untouched. -/
theorem devicesIdDELETE_active_tunnel_guard (id : Nat) (orgList : List Nat)
    (st : DeleteState) :
    ((∃ t ∈ st.tunnels, tunnelBlocksDelete id orgList t = true) →
      devicesIdDELETE id orgList st =
        (Except.error "All device tunnels must be deleted before deleting a device", st)) ∧
    ((∀ t ∈ st.tunnels, tunnelBlocksDelete id orgList t = false) →
      (∃ d ∈ st.devices, devMatch id orgList d = true) →
      (devicesIdDELETE id orgList st).1 = Except.ok () ∧
      (devicesIdDELETE id orgList st).2.devices =
        st.devices.filter (fun d => ! devMatch id orgList d) ∧
      (devicesIdDELETE id orgList st).2.tunnels = st.tunnels) := by
  constructor
  · rintro ⟨t, ht, hblk⟩
    simp only [devicesIdDELETE]
    split
    · rfl
    · next hnotpos =>
      exfalso
      exact hnotpos (List.length_pos_of_mem (List.mem_filter.mpr ⟨ht, hblk⟩))
  · intro hno hex
    simp only [devicesIdDELETE]
    split
    · next hpos =>
      exfalso
      rcases List.exists_mem_of_length_pos hpos with ⟨t, htf⟩
      rcases List.mem_filter.mp htf with ⟨ht, hblk⟩
      rw [hno t ht] at hblk
      cases hblk
    · split
      · next hnil =>
        exfalso
        rcases hex with ⟨d, hd, hmatch⟩
        have hmem : d ∈ st.devices.filter (devMatch id orgList) :=
          List.mem_filter.mpr ⟨hd, hmatch⟩
        rw [hnil] at hmem
        cases hmem
      · exact ⟨rfl, rfl, rfl⟩

/-- C7 witness: the guard applied at a concrete state with an active
referencing tunnel, and the success case at the same state with the tunnel
deactivated. -/
theorem devicesIdDELETE_active_tunnel_guard_witness :
    devicesIdDELETE 1 [1] deleteStateActive =
      (Except.error "All device tunnels must be deleted before deleting a device",
        deleteStateActive) ∧
    ((devicesIdDELETE 1 [1] deleteStateInactive).1 = Except.ok () ∧
      (devicesIdDELETE 1 [1] deleteStateInactive).2.devices =
        deleteStateInactive.devices.filter (fun d => ! devMatch 1 [1] d) ∧
      (devicesIdDELETE 1 [1] deleteStateInactive).2.tunnels =
        deleteStateInactive.tunnels) :=
  ⟨(devicesIdDELETE_active_tunnel_guard 1 [1] deleteStateActive).1
      ⟨tunnelAB true, by decide, by decide⟩,
    (devicesIdDELETE_active_tunnel_guard 1 [1] deleteStateInactive).2
      (by decide) ⟨baseDevice, by decide, by decide⟩⟩

/-- C9: delivering the same on-complete event twice leaves the persisted
device state identical to delivering it once: the complete handler of the
dhcp job module is idempotent on the device collection. -/
theorem dhcpComplete_idempotent (res : Option JobRes) (db : List Device) :
    dhcpComplete res (dhcpComplete res db) = dhcpComplete res db := by
  match res with
  | none => rfl
  | some r =>
    by_cases hempty : r.message = ""
    · simp [dhcpComplete, hempty]
    · by_cases hrem : r.message = "remove-route"
      · simp only [dhcpComplete, hempty, hrem, if_false, if_true, if_neg, if_pos]
        exact updateFirst_idem _ _ _ (fun d => rfl) (pullStaticroute_idem r.routeId)
      · simp only [dhcpComplete, hempty, hrem, if_false, if_true, if_neg, if_pos]
        exact updateFirst_idem _ _ _ (fun d => rfl)
          (setStaticrouteStatus_idem r.routeId "complete")

end Flexi
